import Mathlib

/-!
Verification of the VKYC backend session-matching core
(`backend/main.py`): the `ConnectionManager` registry/assignment state,
the session records mutated by the WebSocket handlers, the expiry
timer, and the start-session endpoint.

The embedding models Python dicts as association lists, sets as lists
without duplicates, and each handler as a pure function from state to
state paired with the list of outgoing messages.  Timestamps are
naturals passed in as a `now` parameter.  Fields of the database
records not touched by any verified property (contact details,
timestamps other than heartbeats, log entries, video paths) are
elided; everything the handlers branch on is kept.
-/

namespace VKYC

/-! ### Association-list primitives (model of Python `dict`) -/

/-- Lookup of a key, first match (Python `d[k]` / `k in d`). -/
def alookup {α β : Type} [DecidableEq α] (k : α) : List (α × β) → Option β
  | [] => none
  | (a, b) :: rest => if a = k then some b else alookup k rest

/-- Remove every entry with the given key (Python `del d[k]`; keys are
unique in every state the code builds, so removing all matches agrees
with removing the one). -/
def aerase {α β : Type} [DecidableEq α] (k : α) : List (α × β) → List (α × β)
  | [] => []
  | (a, b) :: rest => if a = k then aerase k rest else (a, b) :: aerase k rest

/-- Insert-or-replace (Python `d[k] = v`). -/
def aset {α β : Type} [DecidableEq α] (k : α) (v : β) (m : List (α × β)) : List (α × β) :=
  (k, v) :: aerase k m

theorem alookup_aset_self {α β : Type} [DecidableEq α] (k : α) (v : β) (m : List (α × β)) :
    alookup k (aset k v m) = some v := by
  simp [aset, alookup]

theorem alookup_aerase_self {α β : Type} [DecidableEq α] (k : α) (m : List (α × β)) :
    alookup k (aerase k m) = none := by
  induction m with
  | nil => simp [aerase, alookup]
  | cons p rest ih =>
    obtain ⟨a, b⟩ := p
    by_cases ha : a = k
    · simp only [aerase, if_pos ha]; exact ih
    · simp only [aerase, if_neg ha, alookup, if_neg ha]; exact ih

theorem alookup_aerase_ne {α β : Type} [DecidableEq α] {k k' : α} (m : List (α × β))
    (h : k' ≠ k) : alookup k (aerase k' m) = alookup k m := by
  induction m with
  | nil => simp [aerase]
  | cons p rest ih =>
    obtain ⟨a, b⟩ := p
    by_cases ha : a = k'
    · subst ha
      simp only [aerase, if_pos rfl, alookup, if_neg h]
      exact ih
    · simp only [aerase, if_neg ha, alookup]
      by_cases hak : a = k
      · simp [hak]
      · simp only [if_neg hak]; exact ih

theorem alookup_aset_ne {α β : Type} [DecidableEq α] {k k' : α} (v : β) (m : List (α × β))
    (h : k' ≠ k) : alookup k (aset k' v m) = alookup k m := by
  simp only [aset, alookup, if_neg h]
  exact alookup_aerase_ne m h

/-- Erasing a key that is absent does nothing. -/
theorem aerase_of_alookup_none {α β : Type} [DecidableEq α] {k : α} {m : List (α × β)}
    (h : alookup k m = none) : aerase k m = m := by
  induction m with
  | nil => rfl
  | cons p rest ih =>
    obtain ⟨a, b⟩ := p
    by_cases ha : a = k
    · subst ha; simp [alookup] at h
    · simp only [alookup, if_neg ha] at h
      simp only [aerase, if_neg ha]
      rw [ih h]

/-! ### Data model

`Sess` is the slice of the durable `VKYCSession` record the handlers
branch on: its owning customer and its status string.  `SysState`
combines the database tables with the `ConnectionManager` fields of
`backend/main.py` (lines 53-61).  Connection entries keep only the
`last_heartbeat` field; the recorder dict is kept as the set of session
ids holding a recorder object. -/

structure Sess where
  customer_id : Nat
  status : String
deriving DecidableEq, Repr

/-- Message destinations: a customer socket, an agent socket, or the
fan-out of `broadcast_to_all_agents`. -/
inductive Dest where
  | user (sid : Nat)
  | agent (aid : String)
  | allAgents
deriving DecidableEq, Repr

/-- An outgoing message, recorded as destination plus `type` field. -/
abbrev Out := Dest × String

structure SysState where
  /-- ids of `Customer` rows in the database. -/
  customers : List Nat
  /-- `VKYCSession` rows: id to record. -/
  sessions : List (Nat × Sess)
  /-- `manager.active_connections`: session id to `last_heartbeat`. -/
  active_connections : List (Nat × Nat)
  /-- `manager.agent_connections`: agent employee id to `last_heartbeat`. -/
  agent_connections : List (String × Nat)
  /-- `manager.agent_sessions`: agent id to its current session id. -/
  agent_sessions : List (String × Nat)
  /-- `manager.session_agents`: session id to its agent id. -/
  session_agents : List (Nat × String)
  /-- `manager.waiting_sessions`: sessions waiting for an agent. -/
  waiting_sessions : List Nat
  /-- `manager.recordings`: session ids with a `VideoRecorder` entry. -/
  recordings : List Nat
deriving DecidableEq, Repr

/-- The empty state a fresh process starts from. -/
def initState : SysState :=
  { customers := [], sessions := [], active_connections := [], agent_connections := []
  , agent_sessions := [], session_agents := [], waiting_sessions := [], recordings := [] }

/-! ### ConnectionManager operations (main.py lines 63-239) -/

/-- `ConnectionManager.connect_user` (lines 63-74): register the socket
with a fresh heartbeat and create the session's `VideoRecorder`. -/
def connect_user (sid : Nat) (now : Nat) (st : SysState) : SysState :=
  { st with active_connections := aset sid now st.active_connections
          , recordings := if sid ∈ st.recordings then st.recordings else sid :: st.recordings }

/-- `ConnectionManager.connect_agent` (lines 76-85). -/
def connect_agent (aid : String) (now : Nat) (st : SysState) : SysState :=
  { st with agent_connections := aset aid now st.agent_connections }

/-- `ConnectionManager.disconnect_user` (lines 87-110): drop the
connection entry and the recorder; the removal from `waiting_sessions`
is commented out in the source (lines 103-104) and therefore absent
here; release the assignment pair — but, as in the source, only behind
Python's truthiness test `if session_id_int and ...`, which skips the
release when the numeric session id is `0`. -/
def disconnect_user (sid : Nat) (st : SysState) : SysState :=
  let st1 := { st with active_connections := aerase sid st.active_connections
                     , recordings := st.recordings.filter (fun x => x ≠ sid) }
  if sid ≠ 0 then
    match alookup sid st1.session_agents with
    | some aid => { st1 with agent_sessions := aerase aid st1.agent_sessions
                           , session_agents := aerase sid st1.session_agents }
    | none => st1
  else st1

/-- `ConnectionManager.disconnect_agent` (lines 112-123). -/
def disconnect_agent (aid : String) (st : SysState) : SysState :=
  let st1 := { st with agent_connections := aerase aid st.agent_connections }
  match alookup aid st1.agent_sessions with
  | some sid => { st1 with agent_sessions := aerase aid st1.agent_sessions
                         , session_agents := aerase sid st1.session_agents }
  | none => st1

/-- `ConnectionManager.send_to_user` (lines 125-141): no-op when the
customer is not connected; on success the connection's
`last_heartbeat` is set to the current time.  (The transport-failure
branch is environment nondeterminism and is not modelled.) -/
def send_to_user (sid : Nat) (mtype : String) (now : Nat) (st : SysState) : SysState × List Out :=
  if (alookup sid st.active_connections).isSome then
    ({ st with active_connections := aset sid now st.active_connections }, [(Dest.user sid, mtype)])
  else (st, [])

/-- `ConnectionManager.send_to_agent` (lines 143-159). -/
def send_to_agent (aid : String) (mtype : String) (now : Nat) (st : SysState) : SysState × List Out :=
  if (alookup aid st.agent_connections).isSome then
    ({ st with agent_connections := aset aid now st.agent_connections }, [(Dest.agent aid, mtype)])
  else (st, [])

/-- `ConnectionManager.broadcast_to_all_agents` (lines 161-177): sends
to every connected agent, refreshing each agent's heartbeat. -/
def broadcast_to_all_agents (mtype : String) (now : Nat) (st : SysState) : SysState × List Out :=
  ({ st with agent_connections := st.agent_connections.map (fun p => (p.1, now)) },
   [(Dest.allAgents, mtype)])

/-- `ConnectionManager.add_waiting_session` (lines 179-184). -/
def add_waiting_session (sid : Nat) (st : SysState) : Bool × SysState :=
  if sid ∈ st.waiting_sessions then (false, st)
  else (true, { st with waiting_sessions := sid :: st.waiting_sessions })

/-- `ConnectionManager.assign_agent_to_session` (lines 186-206). -/
def assign_agent_to_session (aid : String) (sid : Nat) (st : SysState) : Bool × SysState :=
  if (alookup aid st.agent_sessions).isSome then (false, st)
  else if (alookup sid st.session_agents).isSome then (false, st)
  else
    (true, { st with agent_sessions := aset aid sid st.agent_sessions
                   , session_agents := aset sid aid st.session_agents
                   , waiting_sessions := st.waiting_sessions.filter (fun x => x ≠ sid) })

/-! ### HTTP endpoints touching the core (main.py lines 305, 424-479) -/

/-- `/api/customers/create` (lines 305-333), reduced to the fact that a
new customer row exists. -/
def create_customer (c : Nat) (st : SysState) : SysState :=
  { st with customers := c :: st.customers }

/-- The status filter of the duplicate-session guard in `start_vkyc`
(lines 438-446).  Note: `"agent_joined"` is not in this list. -/
def startGuardStatuses : List String :=
  ["started", "waiting_for_agent", "in_progress", "disconnected"]

/-- The `order_by(id.desc()).first()` query of `start_vkyc`: the
largest session id whose record belongs to the customer and matches
the status filter. -/
def latestActive (c : Nat) : List (Nat × Sess) → Option Nat
  | [] => none
  | (i, s) :: rest =>
    match latestActive c rest with
    | some j =>
      if (s.customer_id = c ∧ s.status ∈ startGuardStatuses) ∧ j < i then some i else some j
    | none =>
      if s.customer_id = c ∧ s.status ∈ startGuardStatuses then some i else none

/-- The autoincrement primary key the database hands a fresh row. -/
def freshId (sessions : List (Nat × Sess)) : Nat :=
  (sessions.foldr (fun p m => max p.1 m) 0) + 1

/-- `POST /api/vkyc/start` (lines 424-479): 404 (`none`) when the
customer is unknown; otherwise reuse the newest session matching the
guard statuses, or create a fresh row with status `"started"`. -/
def start_vkyc (c : Nat) (st : SysState) : Option Nat × SysState :=
  if c ∈ st.customers then
    match latestActive c st.sessions with
    | some sid => (some sid, st)
    | none =>
      let sid := freshId st.sessions
      (some sid, { st with sessions := aset sid ⟨c, "started"⟩ st.sessions })
  else (none, st)

/-! ### Customer WebSocket handlers (main.py lines 482-831)

Each handler returns the successor state and the outgoing messages.
Branches that only append `VKYCLog` rows and forward OCR/DigiLocker
results (lines 607-760) touch neither the manager maps nor the session
status and fall to the catch-all arm of the dispatcher. -/

/-- `user_left` branch (lines 541-567): mark the record disconnected,
tell the assigned agent if any, stop the recorder (entry removal
happens inside `disconnect_user`), disconnect the customer. -/
def handle_user_left (sid : Nat) (now : Nat) (st : SysState) : SysState × List Out :=
  match alookup sid st.sessions with
  | none => (st, [])
  | some sess =>
    let st1 := { st with sessions := aset sid { sess with status := "disconnected" } st.sessions }
    let r1 :=
      match alookup sid st1.session_agents with
      | some aid => send_to_agent aid "user_left" now st1
      | none => (st1, [])
    (disconnect_user sid r1.1, r1.2)

/-- `ready_for_agent` branch (lines 569-600): set the status to
`waiting_for_agent`, run the `add_waiting_session` de-dup gate, and
broadcast `new_waiting_session` only when the gate returned true; then
acknowledge the customer.  (The 300 s expiry timer it spawns is the
separate `session_expiry_timer_fire` step.) -/
def handle_ready_for_agent (sid : Nat) (now : Nat) (st : SysState) : SysState × List Out :=
  match alookup sid st.sessions with
  | none => (st, [])
  | some sess =>
    let st1 := { st with sessions := aset sid { sess with status := "waiting_for_agent" } st.sessions }
    let added := (add_waiting_session sid st1).1
    let st2 := (add_waiting_session sid st1).2
    let r1 := if added then broadcast_to_all_agents "new_waiting_session" now st2 else (st2, [])
    let r2 := send_to_user sid "waiting_for_agent" now r1.1
    (r2.1, r1.2 ++ r2.2)

/-- `kyc_complete` branch (lines 762-797): complete the record, stop
the recorder (`recordings` entry itself is kept by this branch),
notify customer, assigned agent, and all agents. -/
def handle_kyc_complete (sid : Nat) (now : Nat) (st : SysState) : SysState × List Out :=
  match alookup sid st.sessions with
  | none => (st, [])
  | some sess =>
    let st1 := { st with sessions := aset sid { sess with status := "completed" } st.sessions }
    let r1 := send_to_user sid "kyc_completed" now st1
    let r2 :=
      match alookup sid r1.1.session_agents with
      | some aid => send_to_agent aid "session_completed" now r1.1
      | none => (r1.1, [])
    let r3 := broadcast_to_all_agents "session_completed" now r2.1
    (r3.1, r1.2 ++ r2.2 ++ r3.2)

/-- `error` branch (lines 799-802): mark the record failed. -/
def handle_user_error (sid : Nat) (st : SysState) : SysState × List Out :=
  match alookup sid st.sessions with
  | none => (st, [])
  | some sess =>
    ({ st with sessions := aset sid { sess with status := "failed" } st.sessions }, [])

/-- Dispatch of the customer receive loop (lines 526-802) on the
message `type` tag.  The `heartbeat` arm is the bare `continue` of
lines 537-539: no state change and no reply. -/
def handle_user_message (sid : Nat) (mtype : String) (now : Nat) (st : SysState) :
    SysState × List Out :=
  if mtype = "heartbeat" then (st, [])
  else if mtype = "user_left" then handle_user_left sid now st
  else if mtype = "ready_for_agent" then handle_ready_for_agent sid now st
  else if mtype = "kyc_complete" then handle_kyc_complete sid now st
  else if mtype = "error" then handle_user_error sid st
  else (st, [])

/-- The `finally` teardown of the customer socket (lines 821-826):
disconnect, then flip an `in_progress` record to `disconnected`. -/
def user_ws_teardown (sid : Nat) (st : SysState) : SysState :=
  let st1 := disconnect_user sid st
  match alookup sid st1.sessions with
  | some sess =>
    if sess.status = "in_progress" then
      { st1 with sessions := aset sid { sess with status := "disconnected" } st1.sessions }
    else st1
  | none => st1

/-! ### Expiry timer (main.py lines 260-291) -/

/-- The body of `session_expiry_timer` after its sleep: only a record
still in `waiting_for_agent` or `in_progress` is flipped to
`expired`, notified, and disconnected; any other status (or a missing
record) is a strict no-op. -/
def session_expiry_timer_fire (sid : Nat) (now : Nat) (st : SysState) : SysState × List Out :=
  match alookup sid st.sessions with
  | none => (st, [])
  | some sess =>
    if sess.status = "waiting_for_agent" ∨ sess.status = "in_progress" then
      let st1 := { st with sessions := aset sid { sess with status := "expired" } st.sessions }
      let r1 := send_to_user sid "session_expired" now st1
      let r2 := broadcast_to_all_agents "session_expired" now r1.1
      (disconnect_user sid r2.1, r1.2 ++ r2.2)
    else (st, [])

/-! ### Agent WebSocket handlers (main.py lines 833-1140) -/

/-- `accept_session` branch (lines 901-980): unknown session, a status
other than `waiting_for_agent`, an already-busy agent, or a failed
`assign_agent_to_session` are answered with an `error`; on success the
waiting entry is discarded again, the record advances through
`agent_joined` to `in_progress`, and customer / agent / all agents are
notified.  (The recorder start and the fresh 300 s timer are modelled
as the separate steps they are.) -/
def handle_accept_session (aid : String) (sid : Nat) (now : Nat) (st : SysState) :
    SysState × List Out :=
  match alookup sid st.sessions with
  | none => send_to_agent aid "error" now st
  | some sess =>
    if sess.status ≠ "waiting_for_agent" then send_to_agent aid "error" now st
    else if (alookup aid st.agent_sessions).isSome then send_to_agent aid "error" now st
    else
      let assigned := (assign_agent_to_session aid sid st).1
      let st1 := (assign_agent_to_session aid sid st).2
      if assigned then
        let st2 := { st1 with waiting_sessions := st1.waiting_sessions.filter (fun x => x ≠ sid) }
        let st3 := { st2 with sessions := aset sid { sess with status := "agent_joined" } st2.sessions }
        let r1 := send_to_user sid "agent_assigned" now st3
        let r2 := send_to_agent aid "session_accepted" now r1.1
        let r3 := broadcast_to_all_agents "session_taken" now r2.1
        let st4 := { r3.1 with sessions := aset sid { sess with status := "in_progress" } r3.1.sessions }
        (st4, r1.2 ++ r2.2 ++ r3.2)
      else send_to_agent aid "error" now st1

/-- `decline_session` branch (lines 982-1009): an unknown session id is
silently skipped (`continue`, no error reply); otherwise the waiting
entry is removed, the record declined, and both sides are told. -/
def handle_decline_session (sid : Nat) (now : Nat) (st : SysState) : SysState × List Out :=
  match alookup sid st.sessions with
  | none => (st, [])
  | some sess =>
    let st1 := { st with waiting_sessions := st.waiting_sessions.filter (fun x => x ≠ sid) }
    let st2 := { st1 with sessions := aset sid { sess with status := "declined" } st1.sessions }
    let r1 := broadcast_to_all_agents "session_removed" now st2
    let r2 := send_to_user sid "agent_declined" now r1.1
    (r2.1, r1.2 ++ r2.2)

/-- `request_document_capture` branch (lines 1012-1037): refused with
an `error` unless the sender currently holds the assignment for the
named session. -/
def handle_request_document_capture (aid : String) (sid : Nat) (now : Nat) (st : SysState) :
    SysState × List Out :=
  if alookup aid st.agent_sessions ≠ some sid then
    send_to_agent aid "error" now st
  else
    let r1 := send_to_user sid "request_document_capture" now st
    let r2 := send_to_agent aid "document_capture_requested" now r1.1
    (r2.1, r1.2 ++ r2.2)

/-- `cancel_document_capture` branch (lines 1050-1066): same guard. -/
def handle_cancel_document_capture (aid : String) (sid : Nat) (now : Nat) (st : SysState) :
    SysState × List Out :=
  if alookup aid st.agent_sessions ≠ some sid then
    send_to_agent aid "error" now st
  else send_to_user sid "cancel_document_capture" now st

/-- The agent-side `webrtc_offer` / `webrtc_answer` /
`webrtc_ice_candidate` branch (lines 1039-1048): forwarded to the
customer whenever `session_id` is truthy and that customer is
connected — with no assignment check — and silently dropped
otherwise. -/
def handle_agent_webrtc (mtype : String) (sid : Nat) (now : Nat) (st : SysState) :
    SysState × List Out :=
  if sid ≠ 0 ∧ (alookup sid st.active_connections).isSome then
    send_to_user sid mtype now st
  else (st, [])

/-- `leave_session` branch (lines 1068-1100): only for the agent's own
session; the record returns to `waiting_for_agent`, both assignment
directions are deleted, the session re-enters the waiting set, and
customer / agent / all agents are told. -/
def handle_leave_session (aid : String) (sid : Nat) (now : Nat) (st : SysState) :
    SysState × List Out :=
  if alookup aid st.agent_sessions = some sid then
    match alookup sid st.sessions with
    | none => (st, [])
    | some sess =>
      let st1 := { st with sessions := aset sid { sess with status := "waiting_for_agent" } st.sessions }
      let st2 := { st1 with session_agents := aerase sid st1.session_agents
                          , agent_sessions := aerase aid st1.agent_sessions }
      let st3 := (add_waiting_session sid st2).2
      let r1 := send_to_user sid "agent_left" now st3
      let r2 := send_to_agent aid "session_left" now r1.1
      let r3 := broadcast_to_all_agents "session_available" now r2.1
      (r3.1, r1.2 ++ r2.2 ++ r3.2)
  else (st, [])

/-- Dispatch of the agent receive loop (lines 886-1100) on the message
`type` tag; `sid` is the `session_id` payload field.  The `heartbeat`
arm is the bare `continue` of lines 897-899. -/
def handle_agent_message (aid : String) (mtype : String) (sid : Nat) (now : Nat) (st : SysState) :
    SysState × List Out :=
  if mtype = "heartbeat" then (st, [])
  else if mtype = "accept_session" then handle_accept_session aid sid now st
  else if mtype = "decline_session" then handle_decline_session sid now st
  else if mtype = "request_document_capture" then handle_request_document_capture aid sid now st
  else if mtype = "webrtc_offer" ∨ mtype = "webrtc_answer" ∨ mtype = "webrtc_ice_candidate" then
    handle_agent_webrtc mtype sid now st
  else if mtype = "cancel_document_capture" then handle_cancel_document_capture aid sid now st
  else if mtype = "leave_session" then handle_leave_session aid sid now st
  else (st, [])

/-! ### Reachability

One step per externally triggered operation.  The stale-connection
sweep (lines 215-239) is a sequence of `disconnectUser` /
`disconnectAgent` steps and needs no constructor of its own. -/

inductive Step : SysState → SysState → Prop where
  | createCustomer (st : SysState) (c : Nat) : Step st (create_customer c st)
  | startVkyc (st : SysState) (c : Nat) : Step st (start_vkyc c st).2
  | connectUser (st : SysState) (sid now : Nat) : Step st (connect_user sid now st)
  | connectAgent (st : SysState) (aid : String) (now : Nat) : Step st (connect_agent aid now st)
  | disconnectUser (st : SysState) (sid : Nat) : Step st (disconnect_user sid st)
  | disconnectAgent (st : SysState) (aid : String) : Step st (disconnect_agent aid st)
  | userTeardown (st : SysState) (sid : Nat) : Step st (user_ws_teardown sid st)
  | userMsg (st : SysState) (sid : Nat) (mtype : String) (now : Nat) :
      Step st (handle_user_message sid mtype now st).1
  | agentMsg (st : SysState) (aid : String) (mtype : String) (sid now : Nat) :
      Step st (handle_agent_message aid mtype sid now st).1
  | expiryFire (st : SysState) (sid now : Nat) :
      Step st (session_expiry_timer_fire sid now st).1

/-- States reachable from the fresh-process state. -/
inductive Reachable : SysState → Prop where
  | init : Reachable initState
  | step {st st' : SysState} : Reachable st → Step st st' → Reachable st'

/-! ### Frame lemmas for the send primitives -/

theorem send_to_user_frame (sid : Nat) (m : String) (now : Nat) (st : SysState) :
    (send_to_user sid m now st).1.customers = st.customers ∧
    (send_to_user sid m now st).1.sessions = st.sessions ∧
    (send_to_user sid m now st).1.agent_connections = st.agent_connections ∧
    (send_to_user sid m now st).1.agent_sessions = st.agent_sessions ∧
    (send_to_user sid m now st).1.session_agents = st.session_agents ∧
    (send_to_user sid m now st).1.waiting_sessions = st.waiting_sessions ∧
    (send_to_user sid m now st).1.recordings = st.recordings := by
  unfold send_to_user; split <;> simp

theorem send_to_agent_frame (aid : String) (m : String) (now : Nat) (st : SysState) :
    (send_to_agent aid m now st).1.customers = st.customers ∧
    (send_to_agent aid m now st).1.sessions = st.sessions ∧
    (send_to_agent aid m now st).1.active_connections = st.active_connections ∧
    (send_to_agent aid m now st).1.agent_sessions = st.agent_sessions ∧
    (send_to_agent aid m now st).1.session_agents = st.session_agents ∧
    (send_to_agent aid m now st).1.waiting_sessions = st.waiting_sessions ∧
    (send_to_agent aid m now st).1.recordings = st.recordings := by
  unfold send_to_agent; split <;> simp

theorem broadcast_frame (m : String) (now : Nat) (st : SysState) :
    (broadcast_to_all_agents m now st).1.customers = st.customers ∧
    (broadcast_to_all_agents m now st).1.sessions = st.sessions ∧
    (broadcast_to_all_agents m now st).1.active_connections = st.active_connections ∧
    (broadcast_to_all_agents m now st).1.agent_sessions = st.agent_sessions ∧
    (broadcast_to_all_agents m now st).1.session_agents = st.session_agents ∧
    (broadcast_to_all_agents m now st).1.waiting_sessions = st.waiting_sessions ∧
    (broadcast_to_all_agents m now st).1.recordings = st.recordings := by
  unfold broadcast_to_all_agents; simp

theorem disconnect_user_waiting_frame (sid : Nat) (st : SysState) :
    (disconnect_user sid st).waiting_sessions = st.waiting_sessions := by
  unfold disconnect_user
  by_cases h0 : sid ≠ 0
  · simp only [if_pos h0]
    cases alookup sid st.session_agents <;> simp
  · simp only [if_neg h0]

/-! ### C2 — exclusivity of `assign_agent_to_session` -/

theorem assign_fails_of_session_taken (a : String) (s : Nat) (st : SysState)
    (h : (alookup s st.session_agents).isSome) :
    (assign_agent_to_session a s st).1 = false := by
  by_cases h1 : (alookup a st.agent_sessions).isSome <;>
    simp [assign_agent_to_session, h, h1]

/-- C2: `assign_agent_to_session(agentId, sessionId)` returns false and
leaves the state unchanged when the agent already holds an assignment
or the session already has one; otherwise it returns true, records the
pair in both direction maps, and removes the session from the waiting
set; consequently two calls for the same session by distinct agents
cannot both return true. -/
theorem assign_agent_exclusive (st : SysState) (aid a2 : String) (sid : Nat) :
    (((alookup aid st.agent_sessions).isSome ∨ (alookup sid st.session_agents).isSome) →
      assign_agent_to_session aid sid st = (false, st)) ∧
    (alookup aid st.agent_sessions = none → alookup sid st.session_agents = none →
      (assign_agent_to_session aid sid st).1 = true ∧
      alookup aid (assign_agent_to_session aid sid st).2.agent_sessions = some sid ∧
      alookup sid (assign_agent_to_session aid sid st).2.session_agents = some aid ∧
      sid ∉ (assign_agent_to_session aid sid st).2.waiting_sessions) ∧
    (a2 ≠ aid →
      ¬((assign_agent_to_session aid sid st).1 = true ∧
        (assign_agent_to_session a2 sid (assign_agent_to_session aid sid st).2).1 = true)) := by
  refine ⟨?_, ?_, ?_⟩
  · rintro (h | h)
    · simp [assign_agent_to_session, h]
    · by_cases h1 : (alookup aid st.agent_sessions).isSome <;>
        simp [assign_agent_to_session, h, h1]
  · intro h1 h2
    refine ⟨?_, ?_, ?_, ?_⟩
    · simp [assign_agent_to_session, h1, h2]
    · simp [assign_agent_to_session, h1, h2, alookup_aset_self]
    · simp [assign_agent_to_session, h1, h2, alookup_aset_self]
    · simp [assign_agent_to_session, h1, h2, List.mem_filter]
  · rintro hne ⟨h1, h2⟩
    by_cases ha : (alookup aid st.agent_sessions).isSome
    · simp [assign_agent_to_session, ha] at h1
    · by_cases hs : (alookup sid st.session_agents).isSome
      · simp [assign_agent_to_session, ha, hs] at h1
      · rw [Option.not_isSome_iff_eq_none] at ha hs
        have hsa : alookup sid (assign_agent_to_session aid sid st).2.session_agents
            = some aid := by
          simp [assign_agent_to_session, ha, hs, alookup_aset_self]
        have hf : (assign_agent_to_session a2 sid (assign_agent_to_session aid sid st).2).1
            = false := assign_fails_of_session_taken _ _ _ (by rw [hsa]; rfl)
        rw [h2] at hf
        cases hf

/-- Concrete instantiation of `assign_agent_exclusive`: in the empty
state, agent `"A"` wins session `4`, and a subsequent attempt by agent
`"B"` cannot also win. -/
theorem assign_agent_exclusive_witness :
    alookup "A" initState.agent_sessions = none ∧
    alookup (4 : Nat) initState.session_agents = none ∧
    ("B" : String) ≠ "A" ∧
    (assign_agent_to_session "A" 4 initState).1 = true ∧
    ¬((assign_agent_to_session "A" 4 initState).1 = true ∧
      (assign_agent_to_session "B" 4 (assign_agent_to_session "A" 4 initState).2).1 = true) := by
  have h := assign_agent_exclusive initState "A" "B" 4
  exact ⟨rfl, rfl, by decide, (h.2.1 rfl rfl).1, h.2.2 (by decide)⟩

/-! ### C6 — a stale expiry timer is a strict no-op -/

/-- C6: when the expiry timer fires on a session whose status is
outside `{waiting_for_agent, in_progress}` (for instance `completed`),
it neither changes any state nor sends any message. -/
theorem expiry_stale_noop (sid now : Nat) (st : SysState) (sess : Sess)
    (h : alookup sid st.sessions = some sess)
    (hw : sess.status ≠ "waiting_for_agent") (hi : sess.status ≠ "in_progress") :
    session_expiry_timer_fire sid now st = (st, []) := by
  simp [session_expiry_timer_fire, h, hw, hi]

/-- Concrete instantiation of `expiry_stale_noop` on a `completed`
session. -/
theorem expiry_stale_noop_witness :
    alookup 1 ({ initState with sessions := [(1, ⟨6, "completed"⟩)] } : SysState).sessions
      = some ⟨6, "completed"⟩ ∧
    session_expiry_timer_fire 1 9 { initState with sessions := [(1, ⟨6, "completed"⟩)] }
      = ({ initState with sessions := [(1, ⟨6, "completed"⟩)] }, []) :=
  ⟨rfl, expiry_stale_noop 1 9 _ ⟨6, "completed"⟩ rfl (by decide) (by decide)⟩

/-! ### C4 — the heartbeat branches do not touch the timestamp -/

/-- A customer connected for session `7` at time `0`. -/
def hbUserState : SysState := connect_user 7 0 initState

/-- An agent `"A"` connected at time `0`. -/
def hbAgentState : SysState := connect_agent "A" 0 initState

/-- C4 (refuted, code bug): the `heartbeat` arms of both receive loops
are a bare `continue`; handling a heartbeat at time `100` leaves the
connection's `last_heartbeat` at its old value `0` instead of
refreshing it, contradicting the in-line comment "Just update
connection timestamp" (main.py lines 537-539 and 897-899).  The
"no other state change and no outgoing message" half does hold: the
handler returns the state unchanged with no output. -/
theorem heartbeat_no_timestamp_update :
    handle_user_message 7 "heartbeat" 100 hbUserState = (hbUserState, []) ∧
    alookup 7 (handle_user_message 7 "heartbeat" 100 hbUserState).1.active_connections
      = some 0 ∧
    handle_agent_message "A" "heartbeat" 3 100 hbAgentState = (hbAgentState, []) ∧
    alookup "A" (handle_agent_message "A" "heartbeat" 3 100 hbAgentState).1.agent_connections
      = some 0 := by
  refine ⟨rfl, ?_, rfl, ?_⟩ <;> decide

/-! ### C5 — agent-to-customer signaling guards -/

/-- Customer `7` and agent `"A"` connected, no assignment at all. -/
def unassignedAgentState : SysState := connect_agent "A" 0 (connect_user 7 0 initState)

/-- C5 (refuted): a `webrtc_offer` from agent `"A"`, who is assigned to
no session, naming session `7`, is forwarded to customer `7` anyway,
and `"A"` receives no error: the WebRTC branch of the agent loop
(lines 1039-1048) checks only that the customer is connected, never
the assignment. -/
theorem agent_webrtc_unchecked_cex :
    alookup "A" unassignedAgentState.agent_sessions = none ∧
    (handle_agent_message "A" "webrtc_offer" 7 1 unassignedAgentState).2
      = [(Dest.user 7, "webrtc_offer")] := by
  decide

/-- C5 as amended: the assignment guard with the error reply exists
only for `request_document_capture` and `cancel_document_capture`
(those change nothing besides the sender's own heartbeat and forward
nothing); the three WebRTC message kinds are forwarded to the customer
whenever the customer is connected and the session id is nonzero,
regardless of assignment, and otherwise are silently dropped with no
error reply. -/
theorem agent_signaling_amended (st : SysState) (aid : String) (sid now : Nat) (mtype : String)
    (hconn : (alookup aid st.agent_connections).isSome)
    (hun : alookup aid st.agent_sessions ≠ some sid)
    (hm : mtype = "webrtc_offer" ∨ mtype = "webrtc_answer" ∨ mtype = "webrtc_ice_candidate") :
    (handle_agent_message aid "request_document_capture" sid now st).2
      = [(Dest.agent aid, "error")] ∧
    (handle_agent_message aid "request_document_capture" sid now st).1
      = { st with agent_connections := aset aid now st.agent_connections } ∧
    (handle_agent_message aid "cancel_document_capture" sid now st).2
      = [(Dest.agent aid, "error")] ∧
    (handle_agent_message aid "cancel_document_capture" sid now st).1
      = { st with agent_connections := aset aid now st.agent_connections } ∧
    ((sid ≠ 0 ∧ (alookup sid st.active_connections).isSome) →
      (handle_agent_message aid mtype sid now st).2 = [(Dest.user sid, mtype)]) ∧
    (¬(sid ≠ 0 ∧ (alookup sid st.active_connections).isSome) →
      handle_agent_message aid mtype sid now st = (st, [])) := by
  have hdoc : handle_agent_message aid "request_document_capture" sid now st
      = send_to_agent aid "error" now st := by
    simp [handle_agent_message, handle_request_document_capture, hun]
  have hcan : handle_agent_message aid "cancel_document_capture" sid now st
      = send_to_agent aid "error" now st := by
    simp [handle_agent_message, handle_cancel_document_capture, hun]
  have hrtc : handle_agent_message aid mtype sid now st = handle_agent_webrtc mtype sid now st := by
    rcases hm with hm | hm | hm <;> subst hm <;> rfl
  refine ⟨?_, ?_, ?_, ?_, ?_, ?_⟩
  · rw [hdoc]; simp [send_to_agent, hconn]
  · rw [hdoc]; simp [send_to_agent, hconn]
  · rw [hcan]; simp [send_to_agent, hconn]
  · rw [hcan]; simp [send_to_agent, hconn]
  · intro hc
    rw [hrtc]
    simp [handle_agent_webrtc, hc, send_to_user, hc.2]
  · intro hc
    rw [hrtc]
    simp [handle_agent_webrtc, hc]

/-- Concrete instantiation of `agent_signaling_amended`: agent `"A"`
holds no assignment; its document-capture request for session `7` is
answered with an error and not forwarded, while its `webrtc_offer` is
forwarded to the connected customer `7`. -/
theorem agent_signaling_amended_witness :
    (alookup "A" unassignedAgentState.agent_connections).isSome ∧
    alookup "A" unassignedAgentState.agent_sessions ≠ some 7 ∧
    (handle_agent_message "A" "request_document_capture" 7 1 unassignedAgentState).2
      = [(Dest.agent "A", "error")] ∧
    (handle_agent_message "A" "webrtc_offer" 7 1 unassignedAgentState).2
      = [(Dest.user 7, "webrtc_offer")] := by
  have h := agent_signaling_amended unassignedAgentState "A" 7 1 "webrtc_offer"
    (by decide) (by decide) (Or.inl rfl)
  exact ⟨by decide, by decide, h.1, h.2.2.2.2.1 ⟨by decide, by decide⟩⟩

/-! ### C7 — not-found handling for accept and decline -/

/-- Agent `"A"` connected; no session `9` exists anywhere. -/
def noSessionState : SysState := connect_agent "A" 0 initState

/-- C7 (refuted): a `decline_session` naming the unknown session `9`
is silently skipped — the handler replies with nothing at all (the
`if not session: continue` of lines 989-990), although the claim
requires an error answer. -/
theorem decline_unknown_silent_cex :
    alookup 9 noSessionState.sessions = none ∧
    (alookup "A" noSessionState.agent_connections).isSome ∧
    handle_agent_message "A" "decline_session" 9 1 noSessionState = (noSessionState, []) := by
  decide

/-- C7 as amended: a request naming an unknown session id changes no
session record, no assignment entry, and no waiting entry; for
`accept_session` the sender is answered with an `error` message (and
only its own heartbeat entry is refreshed by that send), but for
`decline_session` the request is silently ignored with no reply. -/
theorem notfound_handling_amended (st : SysState) (aid : String) (sid now : Nat)
    (hs : alookup sid st.sessions = none)
    (hconn : (alookup aid st.agent_connections).isSome) :
    (handle_agent_message aid "accept_session" sid now st).2 = [(Dest.agent aid, "error")] ∧
    (handle_agent_message aid "accept_session" sid now st).1
      = { st with agent_connections := aset aid now st.agent_connections } ∧
    handle_agent_message aid "decline_session" sid now st = (st, []) := by
  have hacc : handle_agent_message aid "accept_session" sid now st
      = send_to_agent aid "error" now st := by
    simp [handle_agent_message, handle_accept_session, hs]
  refine ⟨?_, ?_, ?_⟩
  · rw [hacc]; simp [send_to_agent, hconn]
  · rw [hacc]; simp [send_to_agent, hconn]
  · simp [handle_agent_message, handle_decline_session, hs]

/-- Concrete instantiation of `notfound_handling_amended` at the state
with agent `"A"` connected and no session `9`. -/
theorem notfound_handling_amended_witness :
    alookup 9 noSessionState.sessions = none ∧
    (alookup "A" noSessionState.agent_connections).isSome ∧
    (handle_agent_message "A" "accept_session" 9 1 noSessionState).2
      = [(Dest.agent "A", "error")] ∧
    handle_agent_message "A" "decline_session" 9 1 noSessionState = (noSessionState, []) := by
  have h := notfound_handling_amended noSessionState "A" 9 1 (by decide) (by decide)
  exact ⟨by decide, by decide, h.1, h.2.2⟩

/-! ### C8 — waiting-set de-duplication gate -/

theorem ready_broadcast_of_fresh (sid now : Nat) (st : SysState) (sess : Sess)
    (h : sid ∉ st.waiting_sessions) (hs : alookup sid st.sessions = some sess) :
    (Dest.allAgents, "new_waiting_session") ∈ (handle_ready_for_agent sid now st).2 := by
  simp [handle_ready_for_agent, hs, add_waiting_session, h, broadcast_to_all_agents]

theorem ready_no_broadcast_of_waiting (sid now : Nat) (st : SysState)
    (h : sid ∈ st.waiting_sessions) :
    (Dest.allAgents, "new_waiting_session") ∉ (handle_ready_for_agent sid now st).2 := by
  cases hs : alookup sid st.sessions with
  | none => simp [handle_ready_for_agent, hs]
  | some sess =>
    simp only [handle_ready_for_agent, hs, add_waiting_session, h, if_pos, ite_true,
      List.nil_append]
    simp [send_to_user]
    split <;> simp

theorem ready_waiting_mem (sid now : Nat) (st : SysState) (sess : Sess)
    (hs : alookup sid st.sessions = some sess) :
    sid ∈ (handle_ready_for_agent sid now st).1.waiting_sessions := by
  by_cases hw : sid ∈ st.waiting_sessions <;>
    simp [handle_ready_for_agent, hs, add_waiting_session, hw, broadcast_to_all_agents,
      send_to_user] <;> split <;> simp [hw]

/-- C8: `add_waiting_session` called twice in a row on a session not
yet waiting returns true then false, the second call leaves the state
unchanged, and in the `ready_for_agent` handler the
`new_waiting_session` broadcast is sent exactly when the gate returned
true — a duplicate `ready_for_agent` produces no second broadcast. -/
theorem add_waiting_dedup (sid now now2 : Nat) (st : SysState) (sess : Sess)
    (h : sid ∉ st.waiting_sessions) (hs : alookup sid st.sessions = some sess) :
    (add_waiting_session sid st).1 = true ∧
    (add_waiting_session sid (add_waiting_session sid st).2).1 = false ∧
    (add_waiting_session sid (add_waiting_session sid st).2).2 = (add_waiting_session sid st).2 ∧
    (Dest.allAgents, "new_waiting_session") ∈ (handle_ready_for_agent sid now st).2 ∧
    (Dest.allAgents, "new_waiting_session") ∉
      (handle_ready_for_agent sid now2 (handle_ready_for_agent sid now st).1).2 := by
  refine ⟨?_, ?_, ?_, ?_, ?_⟩
  · simp [add_waiting_session, h]
  · simp [add_waiting_session, h]
  · simp [add_waiting_session, h]
  · exact ready_broadcast_of_fresh sid now st sess h hs
  · exact ready_no_broadcast_of_waiting sid now2 _ (ready_waiting_mem sid now st sess hs)

/-- State for the `add_waiting_dedup` witness: session `4` recorded,
not yet waiting. -/
def freshWaitingState : SysState := { initState with sessions := [(4, ⟨2, "started"⟩)] }

/-- Concrete instantiation of `add_waiting_dedup` at session `4`. -/
theorem add_waiting_dedup_witness :
    (4 : Nat) ∉ freshWaitingState.waiting_sessions ∧
    alookup 4 freshWaitingState.sessions = some ⟨2, "started"⟩ ∧
    (add_waiting_session 4 freshWaitingState).1 = true ∧
    (add_waiting_session 4 (add_waiting_session 4 freshWaitingState).2).1 = false ∧
    (Dest.allAgents, "new_waiting_session") ∈ (handle_ready_for_agent 4 1 freshWaitingState).2 ∧
    (Dest.allAgents, "new_waiting_session") ∉
      (handle_ready_for_agent 4 2 (handle_ready_for_agent 4 1 freshWaitingState).1).2 := by
  have hd := add_waiting_dedup 4 1 2 freshWaitingState ⟨2, "started"⟩ (by decide) (by decide)
  exact ⟨by decide, by decide, hd.1, hd.2.1, hd.2.2.2.1, hd.2.2.2.2⟩

/-! ### C9 — disconnect cleanup and idempotence -/

theorem disconnect_user_conn_fields (sid : Nat) (st : SysState) :
    (disconnect_user sid st).active_connections = aerase sid st.active_connections ∧
    (disconnect_user sid st).recordings = st.recordings.filter (fun x => x ≠ sid) := by
  unfold disconnect_user
  by_cases h0 : sid ≠ 0
  · simp only [if_pos h0]
    cases alookup sid st.session_agents <;> simp
  · simp [h0]

theorem disconnect_user_sa_none (sid : Nat) (st : SysState) (h0 : sid ≠ 0) :
    alookup sid (disconnect_user sid st).session_agents = none := by
  unfold disconnect_user
  simp only [if_pos h0]
  cases hv : alookup sid st.session_agents with
  | some a => simp [alookup_aerase_self]
  | none => simpa using hv

theorem disconnect_user_cross (sid : Nat) (st : SysState) (a : String) (h0 : sid ≠ 0)
    (h : alookup sid st.session_agents = some a) :
    alookup a (disconnect_user sid st).agent_sessions = none := by
  unfold disconnect_user
  simp only [if_pos h0]
  simp [h, alookup_aerase_self]

/-- A state with no trace of customer `sid` is a fixed point of
`disconnect_user sid`. -/
theorem disconnect_user_noop (sid : Nat) (st : SysState)
    (h1 : alookup sid st.active_connections = none)
    (h2 : sid ∉ st.recordings)
    (h3 : sid ≠ 0 → alookup sid st.session_agents = none) :
    disconnect_user sid st = st := by
  have hac : aerase sid st.active_connections = st.active_connections :=
    aerase_of_alookup_none h1
  have hrec : st.recordings.filter (fun x => x ≠ sid) = st.recordings := by
    rw [List.filter_eq_self]
    intro x hx
    have hne : x ≠ sid := fun he => h2 (he ▸ hx)
    simpa using hne
  unfold disconnect_user
  by_cases h0 : sid ≠ 0
  · simp only [if_pos h0, hac, hrec, h3 h0]
  · simp only [if_neg h0, hac, hrec]

theorem disconnect_user_idem (sid : Nat) (st : SysState) :
    disconnect_user sid (disconnect_user sid st) = disconnect_user sid st := by
  apply disconnect_user_noop
  · rw [(disconnect_user_conn_fields sid st).1, alookup_aerase_self]
  · rw [(disconnect_user_conn_fields sid st).2]
    simp
  · exact fun h0 => disconnect_user_sa_none sid st h0

theorem disconnect_agent_conn_field (aid : String) (st : SysState) :
    (disconnect_agent aid st).agent_connections = aerase aid st.agent_connections := by
  unfold disconnect_agent
  cases hv : alookup aid st.agent_sessions <;> simp [hv]

theorem disconnect_agent_as_none (aid : String) (st : SysState) :
    alookup aid (disconnect_agent aid st).agent_sessions = none := by
  unfold disconnect_agent
  cases hv : alookup aid st.agent_sessions with
  | some s => simp [hv, alookup_aerase_self]
  | none => simp [hv]

theorem disconnect_agent_cross (aid : String) (st : SysState) (s : Nat)
    (h : alookup aid st.agent_sessions = some s) :
    alookup s (disconnect_agent aid st).session_agents = none := by
  unfold disconnect_agent
  simp [h, alookup_aerase_self]

theorem disconnect_agent_noop (aid : String) (st : SysState)
    (h1 : alookup aid st.agent_connections = none)
    (h2 : alookup aid st.agent_sessions = none) :
    disconnect_agent aid st = st := by
  unfold disconnect_agent
  rw [aerase_of_alookup_none h1]
  simp [h2]

theorem disconnect_agent_idem (aid : String) (st : SysState) :
    disconnect_agent aid (disconnect_agent aid st) = disconnect_agent aid st :=
  disconnect_agent_noop aid _
    (by rw [disconnect_agent_conn_field, alookup_aerase_self])
    (disconnect_agent_as_none aid st)

/-- A crafted state in which the session with numeric id `0` holds an
assignment to agent `"A"` and a live connection. -/
def zeroSessionState : SysState :=
  { initState with
      active_connections := [(0, 0)],
      agent_sessions := [("A", 0)],
      session_agents := [(0, "A")] }

/-- C9 (refuted at session id 0): `disconnect_user("0")` removes the
connection entry but releases neither direction of the assignment,
because the source guards the release with the truthy test
`if session_id_int and ...` (line 106), which is false for the integer
`0`. -/
theorem disconnect_zero_session_cex :
    alookup 0 zeroSessionState.session_agents = some "A" ∧
    alookup 0 (disconnect_user 0 zeroSessionState).active_connections = none ∧
    alookup 0 (disconnect_user 0 zeroSessionState).session_agents = some "A" ∧
    alookup "A" (disconnect_user 0 zeroSessionState).agent_sessions = some 0 := by
  decide

/-- C9 as amended: for every session id other than `0`,
`disconnect_user` removes the connection entry, the recorder entry,
and both directions of any assignment pair (the paired agent's entry
too); `disconnect_agent` does the same for any agent id
unconditionally; and a repeated call of either is a no-op. -/
theorem disconnect_cleanup_amended (st : SysState) (sid : Nat) (aid : String) (h0 : sid ≠ 0) :
    alookup sid (disconnect_user sid st).active_connections = none ∧
    sid ∉ (disconnect_user sid st).recordings ∧
    alookup sid (disconnect_user sid st).session_agents = none ∧
    (∀ a, alookup sid st.session_agents = some a →
      alookup a (disconnect_user sid st).agent_sessions = none) ∧
    disconnect_user sid (disconnect_user sid st) = disconnect_user sid st ∧
    alookup aid (disconnect_agent aid st).agent_connections = none ∧
    alookup aid (disconnect_agent aid st).agent_sessions = none ∧
    (∀ s, alookup aid st.agent_sessions = some s →
      alookup s (disconnect_agent aid st).session_agents = none) ∧
    disconnect_agent aid (disconnect_agent aid st) = disconnect_agent aid st := by
  refine ⟨?_, ?_, disconnect_user_sa_none sid st h0,
    fun a ha => disconnect_user_cross sid st a h0 ha,
    disconnect_user_idem sid st,
    ?_, disconnect_agent_as_none aid st,
    fun s hs => disconnect_agent_cross aid st s hs,
    disconnect_agent_idem aid st⟩
  · rw [(disconnect_user_conn_fields sid st).1, alookup_aerase_self]
  · rw [(disconnect_user_conn_fields sid st).2]; simp
  · rw [disconnect_agent_conn_field, alookup_aerase_self]

/-- State for the `disconnect_cleanup_amended` witness: customer `3`
connected and assigned to agent `"A"`. -/
def pairedState : SysState :=
  { initState with
      active_connections := [(3, 0)],
      agent_connections := [("A", 0)],
      agent_sessions := [("A", 3)],
      session_agents := [(3, "A")],
      recordings := [3] }

/-- Concrete instantiation of `disconnect_cleanup_amended`: tearing
down customer `3` releases agent `"A"`'s entry as well. -/
theorem disconnect_cleanup_amended_witness :
    (3 : Nat) ≠ 0 ∧
    alookup 3 (disconnect_user 3 pairedState).session_agents = none ∧
    alookup "A" (disconnect_user 3 pairedState).agent_sessions = none ∧
    disconnect_user 3 (disconnect_user 3 pairedState) = disconnect_user 3 pairedState := by
  have h := disconnect_cleanup_amended pairedState 3 "A" (by decide)
  exact ⟨by decide, h.2.2.1, h.2.2.2.1 "A" (by decide), h.2.2.2.2.1⟩

/-! ### C3 — idempotent start-session -/

/-- The statuses the claim counts as active (one more than the
source's guard list: it also names `"agent_joined"`). -/
def claimActiveStatuses : List String :=
  ["started", "waiting_for_agent", "agent_joined", "in_progress", "disconnected"]

theorem alookup_mem {α β : Type} [DecidableEq α] {k : α} {v : β} {l : List (α × β)}
    (h : alookup k l = some v) : (k, v) ∈ l := by
  induction l with
  | nil => cases h
  | cons p rest ih =>
    obtain ⟨a, b⟩ := p
    by_cases ha : a = k
    · subst ha
      have hb : alookup a ((a, b) :: rest) = some b := by simp [alookup]
      rw [hb] at h
      cases h
      exact List.mem_cons_self _ _
    · simp only [alookup, if_neg ha] at h
      exact List.mem_cons_of_mem _ (ih h)

theorem key_le_fold {k : Nat} {v : Sess} {l : List (Nat × Sess)} (h : (k, v) ∈ l) :
    k ≤ l.foldr (fun p m => max p.1 m) 0 := by
  induction l with
  | nil => cases h
  | cons p rest ih =>
    rcases List.mem_cons.mp h with h | h
    · subst h
      exact le_max_left _ _
    · exact le_trans (ih h) (le_max_right _ _)

/-- The database never already contains the id it will hand out next. -/
theorem alookup_freshId (l : List (Nat × Sess)) : alookup (freshId l) l = none := by
  cases h : alookup (freshId l) l with
  | none => rfl
  | some v =>
    have hle := key_le_fold (alookup_mem h)
    simp only [freshId] at hle
    exact absurd hle (Nat.not_succ_le_self _)

/-- C3: with a customer on record, running the start-session endpoint
twice in a row returns the same session id from the second call as
from the first, and the second call creates no new session record (the
whole state is untouched by the second call).  The hypothesis is the
claim's premise that some session of the customer is in an active
status (the claim's list, which includes `"agent_joined"`). -/
theorem start_vkyc_idempotent (c : Nat) (st : SysState)
    (hc : c ∈ st.customers)
    (hex : ∃ sid sess, alookup sid st.sessions = some sess ∧ sess.customer_id = c ∧
      sess.status ∈ claimActiveStatuses) :
    (start_vkyc c (start_vkyc c st).2).1 = (start_vkyc c st).1 ∧
    (start_vkyc c (start_vkyc c st).2).2 = (start_vkyc c st).2 := by
  clear hex
  cases hl : latestActive c st.sessions with
  | some sid =>
    have h1 : start_vkyc c st = (some sid, st) := by
      simp [start_vkyc, hc, hl]
    rw [h1]
    simp [start_vkyc, hc, hl]
  | none =>
    have her : aerase (freshId st.sessions) st.sessions = st.sessions :=
      aerase_of_alookup_none (alookup_freshId st.sessions)
    have h1 : start_vkyc c st =
        (some (freshId st.sessions),
         { st with sessions := aset (freshId st.sessions) ⟨c, "started"⟩ st.sessions }) := by
      simp [start_vkyc, hc, hl]
    have h2 : latestActive c (aset (freshId st.sessions) ⟨c, "started"⟩ st.sessions)
        = some (freshId st.sessions) := by
      rw [aset, her]
      simp [latestActive, hl, startGuardStatuses]
    rw [h1]
    simp [start_vkyc, hc, h2]

/-- State for the `start_vkyc_idempotent` witness: customer `1` with a
session in status `"agent_joined"` (active per the claim, yet not in
the source's reuse guard). -/
def startTwiceState : SysState :=
  { initState with customers := [1], sessions := [(5, ⟨1, "agent_joined"⟩)] }

/-- Concrete instantiation of `start_vkyc_idempotent` at a customer
whose only session is in status `"agent_joined"`. -/
theorem start_vkyc_idempotent_witness :
    (1 : Nat) ∈ startTwiceState.customers ∧
    alookup 5 startTwiceState.sessions = some ⟨1, "agent_joined"⟩ ∧
    (start_vkyc 1 (start_vkyc 1 startTwiceState).2).1 = (start_vkyc 1 startTwiceState).1 ∧
    (start_vkyc 1 (start_vkyc 1 startTwiceState).2).2 = (start_vkyc 1 startTwiceState).2 := by
  have h := start_vkyc_idempotent 1 startTwiceState (by decide)
    ⟨5, ⟨1, "agent_joined"⟩, by decide, rfl, by decide⟩
  exact ⟨by decide, by decide, h.1, h.2⟩

/-! ### C1 — the waiting / assignment / non-active exclusivity -/

/-- Trace to the violating state: create customer `1`. -/
def xorTrace1 : SysState := create_customer 1 initState

/-- Trace, step 2: start a session for customer `1` (it gets id `1`). -/
def xorTrace2 : SysState := (start_vkyc 1 xorTrace1).2

/-- Trace, step 3: the customer signals `ready_for_agent`: session `1`
enters the waiting set with status `waiting_for_agent`, the 300 s
timer is armed. -/
def xorTrace3 : SysState := (handle_user_message 1 "ready_for_agent" 3 xorTrace2).1

/-- Trace, step 4: the timer fires: status flips to `expired` and the
customer is disconnected, but the commented-out removal (main.py lines
103-104) leaves session `1` in the waiting set. -/
def xorViolation : SysState := (session_expiry_timer_fire 1 5 xorTrace3).1

/-- C1 (refuted): a reachable state in which session `1` is
simultaneously in the waiting set and in the non-active status
`"expired"` (and unassigned) — two arms of the claimed exclusive
trichotomy hold at once, and contrary to the claim's parenthetical the
expiry transition did not take the id out of the waiting set. -/
theorem waiting_xor_violation_cex :
    Reachable xorViolation ∧
    1 ∈ xorViolation.waiting_sessions ∧
    alookup 1 xorViolation.sessions = some ⟨1, "expired"⟩ ∧
    alookup 1 xorViolation.session_agents = none := by
  refine ⟨?_, by decide, by decide, by decide⟩
  exact Reachable.step
    (Reachable.step
      (Reachable.step
        (Reachable.step Reachable.init (Step.createCustomer initState 1))
        (Step.startVkyc xorTrace1 1))
      (Step.userMsg xorTrace2 1 "ready_for_agent" 3))
    (Step.expiryFire xorTrace3 1 5)

/-- C1 as amended: the expiry transition and the customer disconnect
leave the waiting set entirely unchanged — a session that expires
while waiting, or whose customer disconnects, keeps its waiting-set
entry, so waiting-set membership is not exclusive with a non-active
status; only a successful assignment (and the accept/decline handlers)
take a session id out of the waiting set. -/
theorem waiting_set_retention_amended (sid now : Nat) (aid : String) (st : SysState) :
    (session_expiry_timer_fire sid now st).1.waiting_sessions = st.waiting_sessions ∧
    (disconnect_user sid st).waiting_sessions = st.waiting_sessions ∧
    ((assign_agent_to_session aid sid st).1 = true →
      sid ∉ (assign_agent_to_session aid sid st).2.waiting_sessions) := by
  refine ⟨?_, disconnect_user_waiting_frame sid st, ?_⟩
  · unfold session_expiry_timer_fire
    cases hs : alookup sid st.sessions with
    | none => simp [hs]
    | some sess =>
      by_cases hcond : sess.status = "waiting_for_agent" ∨ sess.status = "in_progress"
      · simp only [hs, if_pos hcond]
        rw [disconnect_user_waiting_frame,
          (broadcast_frame "session_expired" now _).2.2.2.2.2.1,
          (send_to_user_frame sid "session_expired" now _).2.2.2.2.2.1]
      · simp [hs, hcond]
  · intro h
    by_cases h1 : (alookup aid st.agent_sessions).isSome
    · simp [assign_agent_to_session, h1] at h
    · by_cases h2 : (alookup sid st.session_agents).isSome
      · simp [assign_agent_to_session, h1, h2] at h
      · simp [assign_agent_to_session, h1, h2, List.mem_filter]

/-- Concrete instantiation of `waiting_set_retention_amended` along
the violating trace: firing the timer on the waiting session `1` keeps
`1` in the waiting set, and a successful assignment removes it. -/
theorem waiting_set_retention_amended_witness :
    (session_expiry_timer_fire 1 5 xorTrace3).1.waiting_sessions
      = xorTrace3.waiting_sessions ∧
    1 ∉ (assign_agent_to_session "A" 1 xorTrace3).2.waiting_sessions := by
  have h := waiting_set_retention_amended 1 5 "A" xorTrace3
  exact ⟨h.1, h.2.2 (by decide)⟩

/-! ### C10 — `agent_sessions` and `session_agents` are mutual inverses -/

/-- The two assignment maps agree: agent `a` maps to session `s`
exactly when session `s` maps back to agent `a`. -/
def InvMaps (st : SysState) : Prop :=
  ∀ a s, alookup a st.agent_sessions = some s ↔ alookup s st.session_agents = some a

theorem invMaps_of_maps_eq {st st' : SysState}
    (hA : st'.agent_sessions = st.agent_sessions)
    (hS : st'.session_agents = st.session_agents)
    (h : InvMaps st) : InvMaps st' := by
  intro a s
  rw [hA, hS]
  exact h a s

/-- Inserting a pair into both directions preserves the inverse
relation, provided neither key was present. -/
theorem inv_insert_pair (AS : List (String × Nat)) (SA : List (Nat × String))
    (a0 : String) (s0 : Nat)
    (h : ∀ a s, alookup a AS = some s ↔ alookup s SA = some a)
    (ha : alookup a0 AS = none) (hs : alookup s0 SA = none) :
    ∀ a s, alookup a (aset a0 s0 AS) = some s ↔ alookup s (aset s0 a0 SA) = some a := by
  intro a s
  by_cases hA : a = a0
  · rw [hA, alookup_aset_self]
    by_cases hS : s = s0
    · rw [hS, alookup_aset_self]
      simp [hS]
    · rw [alookup_aset_ne _ _ (Ne.symm hS)]
      constructor
      · intro he
        cases he
        exact absurd rfl hS
      · intro he
        have hx := (h a0 s).mpr he
        rw [ha] at hx
        cases hx
  · rw [alookup_aset_ne _ _ (fun he => hA he.symm)]
    by_cases hS : s = s0
    · rw [hS, alookup_aset_self]
      constructor
      · intro he
        have hx := (h a s0).mp he
        rw [hs] at hx
        cases hx
      · intro he
        cases he
        exact absurd rfl hA
    · rw [alookup_aset_ne _ _ (Ne.symm hS)]
      exact h a s

/-- Deleting a pair from both directions preserves the inverse
relation, provided the deleted keys belonged to one pair. -/
theorem inv_erase_pair (AS : List (String × Nat)) (SA : List (Nat × String))
    (a0 : String) (s0 : Nat)
    (h : ∀ a s, alookup a AS = some s ↔ alookup s SA = some a)
    (hp : alookup s0 SA = some a0) :
    ∀ a s, alookup a (aerase a0 AS) = some s ↔ alookup s (aerase s0 SA) = some a := by
  intro a s
  by_cases hA : a = a0
  · rw [hA, alookup_aerase_self]
    constructor
    · intro he
      cases he
    · intro he
      by_cases hS : s = s0
      · rw [hS, alookup_aerase_self] at he
        cases he
      · rw [alookup_aerase_ne _ (Ne.symm hS)] at he
        have h1 := (h a0 s).mpr he
        have h2 := (h a0 s0).mpr hp
        rw [h1] at h2
        cases h2
        exact absurd rfl hS
  · rw [alookup_aerase_ne _ (fun he => hA he.symm)]
    by_cases hS : s = s0
    · rw [hS, alookup_aerase_self]
      constructor
      · intro he
        have h2 := (h a s0).mp he
        rw [hp] at h2
        cases h2
        exact absurd rfl hA
      · intro he
        cases he
    · rw [alookup_aerase_ne _ (Ne.symm hS)]
      exact h a s

theorem send_to_user_as (sid : Nat) (m : String) (now : Nat) (st : SysState) :
    (send_to_user sid m now st).1.agent_sessions = st.agent_sessions :=
  (send_to_user_frame sid m now st).2.2.2.1

theorem send_to_user_sa (sid : Nat) (m : String) (now : Nat) (st : SysState) :
    (send_to_user sid m now st).1.session_agents = st.session_agents :=
  (send_to_user_frame sid m now st).2.2.2.2.1

theorem send_to_agent_as (aid : String) (m : String) (now : Nat) (st : SysState) :
    (send_to_agent aid m now st).1.agent_sessions = st.agent_sessions :=
  (send_to_agent_frame aid m now st).2.2.2.1

theorem send_to_agent_sa (aid : String) (m : String) (now : Nat) (st : SysState) :
    (send_to_agent aid m now st).1.session_agents = st.session_agents :=
  (send_to_agent_frame aid m now st).2.2.2.2.1

theorem broadcast_as (m : String) (now : Nat) (st : SysState) :
    (broadcast_to_all_agents m now st).1.agent_sessions = st.agent_sessions :=
  (broadcast_frame m now st).2.2.2.1

theorem broadcast_sa (m : String) (now : Nat) (st : SysState) :
    (broadcast_to_all_agents m now st).1.session_agents = st.session_agents :=
  (broadcast_frame m now st).2.2.2.2.1

theorem add_waiting_as (sid : Nat) (st : SysState) :
    (add_waiting_session sid st).2.agent_sessions = st.agent_sessions := by
  unfold add_waiting_session
  split <;> rfl

theorem add_waiting_sa (sid : Nat) (st : SysState) :
    (add_waiting_session sid st).2.session_agents = st.session_agents := by
  unfold add_waiting_session
  split <;> rfl

theorem invMaps_send_to_user (sid : Nat) (m : String) (now : Nat) (st : SysState)
    (h : InvMaps st) : InvMaps (send_to_user sid m now st).1 :=
  invMaps_of_maps_eq (send_to_user_as sid m now st) (send_to_user_sa sid m now st) h

theorem invMaps_send_to_agent (aid : String) (m : String) (now : Nat) (st : SysState)
    (h : InvMaps st) : InvMaps (send_to_agent aid m now st).1 :=
  invMaps_of_maps_eq (send_to_agent_as aid m now st) (send_to_agent_sa aid m now st) h

theorem invMaps_broadcast (m : String) (now : Nat) (st : SysState)
    (h : InvMaps st) : InvMaps (broadcast_to_all_agents m now st).1 :=
  invMaps_of_maps_eq (broadcast_as m now st) (broadcast_sa m now st) h

theorem invMaps_add_waiting (sid : Nat) (st : SysState)
    (h : InvMaps st) : InvMaps (add_waiting_session sid st).2 :=
  invMaps_of_maps_eq (add_waiting_as sid st) (add_waiting_sa sid st) h

theorem invMaps_assign (aid : String) (sid : Nat) (st : SysState) (h : InvMaps st) :
    InvMaps (assign_agent_to_session aid sid st).2 := by
  unfold assign_agent_to_session
  split
  next h1 => exact h
  next h1 =>
    split
    next h2 => exact h
    next h2 =>
      intro x y
      exact inv_insert_pair st.agent_sessions st.session_agents aid sid h
        (Option.not_isSome_iff_eq_none.mp (by simpa using h1))
        (Option.not_isSome_iff_eq_none.mp (by simpa using h2)) x y

theorem invMaps_disconnect_user (sid : Nat) (st : SysState) (h : InvMaps st) :
    InvMaps (disconnect_user sid st) := by
  unfold disconnect_user
  by_cases h0 : sid ≠ 0
  · simp only [if_pos h0]
    split
    next a heq =>
      intro x y
      exact inv_erase_pair st.agent_sessions st.session_agents a sid h heq x y
    next heq => exact invMaps_of_maps_eq rfl rfl h
  · simp only [if_neg h0]
    exact invMaps_of_maps_eq rfl rfl h

theorem invMaps_disconnect_agent (aid : String) (st : SysState) (h : InvMaps st) :
    InvMaps (disconnect_agent aid st) := by
  unfold disconnect_agent
  dsimp only
  split
  next s heq =>
    intro x y
    exact inv_erase_pair st.agent_sessions st.session_agents aid s h ((h aid s).mp heq) x y
  next heq => exact invMaps_of_maps_eq rfl rfl h

theorem invMaps_create_customer (c : Nat) (st : SysState) (h : InvMaps st) :
    InvMaps (create_customer c st) :=
  invMaps_of_maps_eq rfl rfl h

theorem invMaps_connect_user (sid now : Nat) (st : SysState) (h : InvMaps st) :
    InvMaps (connect_user sid now st) :=
  invMaps_of_maps_eq rfl rfl h

theorem invMaps_connect_agent (aid : String) (now : Nat) (st : SysState) (h : InvMaps st) :
    InvMaps (connect_agent aid now st) :=
  invMaps_of_maps_eq rfl rfl h

theorem invMaps_start_vkyc (c : Nat) (st : SysState) (h : InvMaps st) :
    InvMaps (start_vkyc c st).2 := by
  unfold start_vkyc
  dsimp only
  split
  · split
    · exact h
    · exact invMaps_of_maps_eq rfl rfl h
  · exact h

theorem invMaps_handle_user_left (sid now : Nat) (st : SysState) (h : InvMaps st) :
    InvMaps (handle_user_left sid now st).1 := by
  unfold handle_user_left
  dsimp only
  split
  · exact h
  · apply invMaps_disconnect_user
    split
    · exact invMaps_send_to_agent _ _ _ _ (invMaps_of_maps_eq rfl rfl h)
    · exact invMaps_of_maps_eq rfl rfl h

theorem invMaps_handle_ready (sid now : Nat) (st : SysState) (h : InvMaps st) :
    InvMaps (handle_ready_for_agent sid now st).1 := by
  unfold handle_ready_for_agent
  dsimp only
  split
  · exact h
  · apply invMaps_send_to_user
    split
    · apply invMaps_broadcast
      apply invMaps_add_waiting
      exact invMaps_of_maps_eq rfl rfl h
    · apply invMaps_add_waiting
      exact invMaps_of_maps_eq rfl rfl h

theorem invMaps_handle_kyc (sid now : Nat) (st : SysState) (h : InvMaps st) :
    InvMaps (handle_kyc_complete sid now st).1 := by
  cases hs : alookup sid st.sessions with
  | none => simpa [handle_kyc_complete, hs] using h
  | some sess =>
    unfold handle_kyc_complete
    rw [hs]
    dsimp only
    apply invMaps_broadcast
    have hInv : InvMaps (send_to_user sid "kyc_completed" now
        { st with sessions := aset sid { sess with status := "completed" } st.sessions }).1 :=
      invMaps_send_to_user _ _ _ _ (invMaps_of_maps_eq rfl rfl h)
    cases hv : alookup sid (send_to_user sid "kyc_completed" now
        { st with sessions := aset sid { sess with status := "completed" } st.sessions
        }).1.session_agents with
    | some aid => exact invMaps_send_to_agent _ _ _ _ hInv
    | none => exact hInv

theorem invMaps_handle_user_error (sid : Nat) (st : SysState) (h : InvMaps st) :
    InvMaps (handle_user_error sid st).1 := by
  unfold handle_user_error
  split
  · exact h
  · exact invMaps_of_maps_eq rfl rfl h

theorem invMaps_handle_user_message (sid : Nat) (m : String) (now : Nat) (st : SysState)
    (h : InvMaps st) : InvMaps (handle_user_message sid m now st).1 := by
  unfold handle_user_message
  split
  · exact h
  · split
    · exact invMaps_handle_user_left sid now st h
    · split
      · exact invMaps_handle_ready sid now st h
      · split
        · exact invMaps_handle_kyc sid now st h
        · split
          · exact invMaps_handle_user_error sid st h
          · exact h

theorem invMaps_user_teardown (sid : Nat) (st : SysState) (h : InvMaps st) :
    InvMaps (user_ws_teardown sid st) := by
  unfold user_ws_teardown
  dsimp only
  split
  · split
    · exact invMaps_of_maps_eq rfl rfl (invMaps_disconnect_user sid st h)
    · exact invMaps_disconnect_user sid st h
  · exact invMaps_disconnect_user sid st h

theorem invMaps_handle_accept (aid : String) (sid now : Nat) (st : SysState) (h : InvMaps st) :
    InvMaps (handle_accept_session aid sid now st).1 := by
  unfold handle_accept_session
  dsimp only
  split
  · exact invMaps_send_to_agent _ _ _ _ h
  · split
    · exact invMaps_send_to_agent _ _ _ _ h
    · split
      · exact invMaps_send_to_agent _ _ _ _ h
      · split
        · refine invMaps_of_maps_eq ?_ ?_ (invMaps_assign aid sid st h)
          · simp only [broadcast_as, send_to_agent_as, send_to_user_as]
          · simp only [broadcast_sa, send_to_agent_sa, send_to_user_sa]
        · exact invMaps_send_to_agent _ _ _ _ (invMaps_assign aid sid st h)

theorem invMaps_handle_decline (sid now : Nat) (st : SysState) (h : InvMaps st) :
    InvMaps (handle_decline_session sid now st).1 := by
  unfold handle_decline_session
  dsimp only
  split
  · exact h
  · apply invMaps_send_to_user
    apply invMaps_broadcast
    exact invMaps_of_maps_eq rfl rfl h

theorem invMaps_handle_reqdoc (aid : String) (sid now : Nat) (st : SysState) (h : InvMaps st) :
    InvMaps (handle_request_document_capture aid sid now st).1 := by
  unfold handle_request_document_capture
  dsimp only
  split
  · exact invMaps_send_to_agent _ _ _ _ h
  · apply invMaps_send_to_agent
    apply invMaps_send_to_user
    exact h

theorem invMaps_handle_cancel (aid : String) (sid now : Nat) (st : SysState) (h : InvMaps st) :
    InvMaps (handle_cancel_document_capture aid sid now st).1 := by
  unfold handle_cancel_document_capture
  split
  · exact invMaps_send_to_agent _ _ _ _ h
  · exact invMaps_send_to_user _ _ _ _ h

theorem invMaps_handle_webrtc (m : String) (sid now : Nat) (st : SysState) (h : InvMaps st) :
    InvMaps (handle_agent_webrtc m sid now st).1 := by
  unfold handle_agent_webrtc
  split
  · exact invMaps_send_to_user _ _ _ _ h
  · exact h

theorem invMaps_handle_leave (aid : String) (sid now : Nat) (st : SysState) (h : InvMaps st) :
    InvMaps (handle_leave_session aid sid now st).1 := by
  unfold handle_leave_session
  by_cases hv : alookup aid st.agent_sessions = some sid
  · simp only [if_pos hv]
    cases hs : alookup sid st.sessions with
    | none => simpa [hs] using h
    | some sess =>
      dsimp only
      apply invMaps_broadcast
      apply invMaps_send_to_agent
      apply invMaps_send_to_user
      apply invMaps_add_waiting
      intro x y
      exact inv_erase_pair st.agent_sessions st.session_agents aid sid h ((h aid sid).mp hv) x y
  · simp only [if_neg hv]
    exact h

theorem invMaps_handle_agent_message (aid : String) (m : String) (sid now : Nat) (st : SysState)
    (h : InvMaps st) : InvMaps (handle_agent_message aid m sid now st).1 := by
  unfold handle_agent_message
  split
  · exact h
  · split
    · exact invMaps_handle_accept aid sid now st h
    · split
      · exact invMaps_handle_decline sid now st h
      · split
        · exact invMaps_handle_reqdoc aid sid now st h
        · split
          · exact invMaps_handle_webrtc m sid now st h
          · split
            · exact invMaps_handle_cancel aid sid now st h
            · split
              · exact invMaps_handle_leave aid sid now st h
              · exact h

theorem invMaps_expiry (sid now : Nat) (st : SysState) (h : InvMaps st) :
    InvMaps (session_expiry_timer_fire sid now st).1 := by
  unfold session_expiry_timer_fire
  dsimp only
  split
  · exact h
  · split
    · apply invMaps_disconnect_user
      apply invMaps_broadcast
      apply invMaps_send_to_user
      exact invMaps_of_maps_eq rfl rfl h
    · exact h

/-- C10: at every reachable state, the two assignment maps are mutual
inverses — `agent_sessions` maps agent `a` to session `s` exactly when
`session_agents` maps `s` back to `a`; every modelled operation
(assignment, both disconnects, the leave handler, and all the other
message handlers) preserves this. -/
theorem assignment_maps_inverse (st : SysState) (h : Reachable st) : InvMaps st := by
  induction h with
  | init =>
    intro a s
    simp [initState, alookup]
  | step hr hstep ih =>
    cases hstep with
    | createCustomer c => exact invMaps_create_customer c _ ih
    | startVkyc c => exact invMaps_start_vkyc c _ ih
    | connectUser sid now => exact invMaps_connect_user sid now _ ih
    | connectAgent aid now => exact invMaps_connect_agent aid now _ ih
    | disconnectUser sid => exact invMaps_disconnect_user sid _ ih
    | disconnectAgent aid => exact invMaps_disconnect_agent aid _ ih
    | userTeardown sid => exact invMaps_user_teardown sid _ ih
    | userMsg sid m now => exact invMaps_handle_user_message sid m now _ ih
    | agentMsg aid m sid now => exact invMaps_handle_agent_message aid m sid now _ ih
    | expiryFire sid now => exact invMaps_expiry sid now _ ih

/-- Concrete instantiation of `assignment_maps_inverse` at the
initial state. -/
theorem assignment_maps_inverse_witness : InvMaps initState :=
  assignment_maps_inverse initState Reachable.init

end VKYC
